import Mathlib

/-!
Shallow embedding of the filtering and aggregation logic of the two dashboard
scripts `src/app.py` and `src/.ipynb_checkpoints/app_comparison-checkpoint.py`.

Modelling conventions:
- a table is a `List Row`; pandas boolean-mask row selection is `List.filter`;
- salaries are rationals (the data is pre-cleaned numeric);
- the set of skill flag columns of a row is its `skills` list: the boolean
  column `col` of a row `r` is `col ∈ r.skills`, and `df[col].sum()` over a
  boolean column is the length of the filtered list;
- `pandas.Series.median` returns NaN on an empty column; we model its result
  as `Option ℚ` with `none` for the empty case;
- Python float constants 1.2 and 0.5 are exact in the source's decimal
  notation and are modelled as the rationals 6/5 and 1/2.
-/

structure Row where
  job_category : String
  seniority : String
  state : String
  location : String
  company : String
  avg_salary_k : ℚ
  skills : List String
  deriving DecidableEq

/-- The `state_mapping` dictionary of `load_data` in `src/app.py` (lines 19-33):
the 50 US state abbreviations plus DC, mapped to full names. -/
def state_mapping : List (String × String) :=
  [("AL", "Alabama"), ("AK", "Alaska"), ("AZ", "Arizona"), ("AR", "Arkansas"),
   ("CA", "California"), ("CO", "Colorado"), ("CT", "Connecticut"), ("DE", "Delaware"),
   ("FL", "Florida"), ("GA", "Georgia"), ("HI", "Hawaii"), ("ID", "Idaho"),
   ("IL", "Illinois"), ("IN", "Indiana"), ("IA", "Iowa"), ("KS", "Kansas"),
   ("KY", "Kentucky"), ("LA", "Louisiana"), ("ME", "Maine"), ("MD", "Maryland"),
   ("MA", "Massachusetts"), ("MI", "Michigan"), ("MN", "Minnesota"), ("MS", "Mississippi"),
   ("MO", "Missouri"), ("MT", "Montana"), ("NE", "Nebraska"), ("NV", "Nevada"),
   ("NH", "New Hampshire"), ("NJ", "New Jersey"), ("NM", "New Mexico"), ("NY", "New York"),
   ("NC", "North Carolina"), ("ND", "North Dakota"), ("OH", "Ohio"), ("OK", "Oklahoma"),
   ("OR", "Oregon"), ("PA", "Pennsylvania"), ("RI", "Rhode Island"), ("SC", "South Carolina"),
   ("SD", "South Dakota"), ("TN", "Tennessee"), ("TX", "Texas"), ("UT", "Utah"),
   ("VT", "Vermont"), ("VA", "Virginia"), ("WA", "Washington"), ("WV", "West Virginia"),
   ("WI", "Wisconsin"), ("WY", "Wyoming"), ("DC", "Washington DC")]

/-- Embeds `df['state'].map(state_mapping).fillna(df['state'])` from
`src/app.py` line 36: `Series.map` with a dict yields NaN (`none`) on keys
absent from the dict, and `fillna` then restores the original value. -/
def normalizeState (s : String) : String :=
  (state_mapping.lookup s).getD s

/-- Embeds `load_data` from `src/app.py` lines 14-38 (minus the file read):
replaces each row's state abbreviation by its full name, leaving unknown
values unchanged and every other field untouched. -/
def load_data (df : List Row) : List Row :=
  df.map (fun r => { r with state := normalizeState r.state })

/-- Embeds the shared seniority step (`src/app.py` lines 72-73 and
`app_comparison-checkpoint.py` lines 69-70): restrict to rows whose
seniority equals the selection, unless the selection is the wildcard. -/
def filterSeniority (df : List Row) (sen : String) : List Row :=
  if sen ≠ "All" then df.filter (fun r => decide (r.seniority = sen)) else df

/-- Embeds the state step of `src/app.py` lines 75-76. -/
def filterState (df : List Row) (st : String) : List Row :=
  if st ≠ "All" then df.filter (fun r => decide (r.state = st)) else df

/-- Embeds the `filtered_df` pipeline of `src/app.py` lines 69-76:
`between(lo, hi)` (inclusive on both ends), then the seniority step,
then the state step. -/
def filtered_df (df : List Row) (lo hi : ℚ) (sen st : String) : List Row :=
  filterState
    (filterSeniority
      (df.filter (fun r => decide (lo ≤ r.avg_salary_k ∧ r.avg_salary_k ≤ hi)))
      sen)
    st

/-- Embeds `filter_data` from `app_comparison-checkpoint.py` lines 67-71:
`isin(categories)` then the seniority step. -/
def filter_data (df : List Row) (categories : List String) (seniority : String) : List Row :=
  filterSeniority (df.filter (fun r => decide (r.job_category ∈ categories))) seniority

/-- One interaction sequence on the comparison dashboard: on every widget
change the whole script re-executes and recomputes the view from the cached
source table, discarding the previous view (it is not an input of the
recomputation). `renderSeq df cats sens` is the view displayed after the
seniority selections `sens` have been made in order, starting from the
default selection. -/
def renderSeq (df : List Row) (cats : List String) (sens : List String) : List Row :=
  sens.foldl (fun _prev sen => filter_data df cats sen) (filter_data df cats ("All"))

/-- The same interaction sequence on the USA dashboard of `src/app.py`. -/
def renderSeqUSA (df : List Row) (lo hi : ℚ) (st : String) (sens : List String) : List Row :=
  sens.foldl (fun _prev sen => filtered_df df lo hi sen st) (filtered_df df lo hi ("All") st)

/-- Insertion into a sorted list of rationals. -/
def insertSorted (x : ℚ) : List ℚ → List ℚ
  | [] => [x]
  | y :: ys => if x ≤ y then x :: y :: ys else y :: insertSorted x ys

/-- Insertion sort on rationals, used to model the sort inside `median`. -/
def sortRat (l : List ℚ) : List ℚ := l.foldr insertSorted []

/-- Embeds `pandas.Series.median`: `none` on an empty column (pandas yields
NaN there); otherwise the middle element of the sorted values, or the mean
of the two middle elements when the count is even. -/
def median (l : List ℚ) : Option ℚ :=
  if (sortRat l).length = 0 then none
  else if (sortRat l).length % 2 = 1 then (sortRat l)[(sortRat l).length / 2]?
  else
    match (sortRat l)[(sortRat l).length / 2 - 1]?, (sortRat l)[(sortRat l).length / 2]? with
    | some a, some b => some ((a + b) / 2)
    | _, _ => none

/-- Embeds `filtered_df['avg_salary_k'].median()` from `src/app.py` line 87. -/
def median_salary (df : List Row) : Option ℚ := median (df.map (fun r => r.avg_salary_k))

/-- Embeds the metric rendering of `src/app.py` line 88,
the f-string `"$" + format(median_salary, ".0f") + "K"`: the code applies the
format directly to the median with no emptiness guard, so a NaN median
(empty view, modelled `none`) renders as the literal text `$nanK`.
(`format(q, ".0f")` on a number is modelled by rounding to an integer; the
exact tie-breaking rule is irrelevant to the claims below.) -/
def medianSalaryDisplay (df : List Row) : String :=
  match median_salary df with
  | none => "$nanK"
  | some q => "$" ++ toString (round q) ++ "K"

/-- Embeds the skill-percentage expression of
`app_comparison-checkpoint.py` lines 283-284:
`(df[col].sum() / len(df) * 100) if len(df) > 0 else 0`. -/
def skillPct (df : List Row) (col : String) : ℚ :=
  if 0 < df.length then
    (((df.filter (fun r => decide (col ∈ r.skills))).length : ℚ) / (df.length : ℚ)) * 100
  else 0

/-- Embeds the construction of the `usa_skills` / `india_skills` maps of
`app_comparison-checkpoint.py` lines 281-288: a skill column enters the
comparison exactly when `usa_pct > 5 or india_pct > 5`. -/
def comparisonSkills (dfUsa dfIndia : List Row) (cols : List String) :
    List (String × ℚ × ℚ) :=
  cols.filterMap (fun col =>
    if 5 < skillPct dfUsa col ∨ 5 < skillPct dfIndia col then
      some (col, skillPct dfUsa col, skillPct dfIndia col)
    else none)

/-- Embeds the `skill_counts` loop of `src/app.py` lines 172-177: each skill
column with a positive count in the filtered view, with its count. -/
def skill_counts (df : List Row) (cols : List String) : List (String × Nat) :=
  cols.filterMap (fun col =>
    if 0 < (df.filter (fun r => decide (col ∈ r.skills))).length then
      some (col, (df.filter (fun r => decide (col ∈ r.skills))).length)
    else none)

/-- Embeds `round(1)` applied to a percentage in `src/app.py` line 185:
rounding to one decimal place. -/
def round1 (x : ℚ) : ℚ := ((⌊x * 10 + 1 / 2⌋ : ℤ) : ℚ) / 10

/-- Embeds the `Percentage` column of `src/app.py` line 185:
`(count / len(filtered_df) * 100).round(1)`. (Rows of `skills_df` exist only
for counts > 0, so the length is positive whenever this is evaluated.) -/
def percentageOf (df : List Row) (count : Nat) : ℚ :=
  round1 (((count : ℚ) / (df.length : ℚ)) * 100)

/-- Embeds `india_sal_usd = india_sal * 1.2` from
`app_comparison-checkpoint.py` line 122 (also line 178): the fixed
LPA-to-USD-thousand conversion, 1.2 = 6/5 exactly. -/
def india_sal_usd (lpa : ℚ) : ℚ := lpa * (6 / 5)

/-- Embeds `ppp_ratio = ratio / 3 if ratio > 0 else 0` from
`app_comparison-checkpoint.py` line 129: the fixed purchasing-power-parity
divisor. -/
def ppp_adjusted (x : ℚ) : ℚ := if 0 < x then x / 3 else 0

/-- A concrete job row with the given seniority, salary and skill columns;
the remaining fields are constants irrelevant to the concrete examples. -/
def mkJob (sen : String) (sal : ℚ) (sks : List String) : Row :=
  { job_category := "Data Analyst", seniority := sen, state := "California",
    location := "California", company := "Acme", avg_salary_k := sal, skills := sks }

/-- The ten-row example table of the specification: salaries 50..140 in steps
of 10, with exactly the rows of salary 100, 110, 120 and 140 marked Senior. -/
def exampleTable : List Row :=
  [mkJob ("Junior") 50 [], mkJob ("Junior") 60 [], mkJob ("Junior") 70 [],
   mkJob ("Mid-Level") 80 [], mkJob ("Mid-Level") 90 [],
   mkJob ("Senior") 100 [], mkJob ("Senior") 110 [], mkJob ("Senior") 120 [],
   mkJob ("Mid-Level") 130 [], mkJob ("Senior") 140 []]

/-- A one-row table whose only row is Junior: filtering it to Senior gives an
empty view. -/
def c2Table : List Row := [mkJob ("Junior") 100 []]

/-- Twenty rows of which exactly one carries the skill column: the skill's
prevalence is exactly 5 percent. -/
def c5UsaTable : List Row :=
  List.replicate 19 (mkJob ("Junior") 100 []) ++ [mkJob ("Junior") 100 (["python"])]

/-- A second twenty-row table with the same 5-percent prevalence. -/
def c5IndiaTable : List Row :=
  List.replicate 19 (mkJob ("Junior") 8 []) ++ [mkJob ("Junior") 8 (["python"])]

/-- A row whose state field is the abbreviation CA. -/
def c10Row : Row :=
  { job_category := "Data Scientist", seniority := "Senior", state := "CA",
    location := "San Jose", company := "Acme", avg_salary_k := 120, skills := [] }

/-! Helper lemmas about the filter steps, shared by several theorems. -/

/-- Membership in the seniority step: the wildcard imposes no restriction. -/
theorem mem_filterSeniority (df : List Row) (sen : String) (r : Row) :
    r ∈ filterSeniority df sen ↔ r ∈ df ∧ (sen = "All" ∨ r.seniority = sen) := by
  unfold filterSeniority
  by_cases h : sen = "All" <;> simp [h, List.mem_filter]

/-- Membership in the state step: the wildcard imposes no restriction. -/
theorem mem_filterState (df : List Row) (st : String) (r : Row) :
    r ∈ filterState df st ↔ r ∈ df ∧ (st = "All" ∨ r.state = st) := by
  unfold filterState
  by_cases h : st = "All" <;> simp [h, List.mem_filter]

/-- The seniority step never adds rows. -/
theorem length_filterSeniority_le (df : List Row) (sen : String) :
    (filterSeniority df sen).length ≤ df.length := by
  unfold filterSeniority
  split
  · exact List.length_filter_le _ _
  · exact le_refl _

/-- The state step never adds rows. -/
theorem length_filterState_le (df : List Row) (st : String) :
    (filterState df st).length ≤ df.length := by
  unfold filterState
  split
  · exact List.length_filter_le _ _
  · exact le_refl _

/-- Claim C1: both filter engines return exactly the rows of the source table
satisfying the conjunction of the active predicates: for `filtered_df` of
`src/app.py`, salary within the inclusive range, seniority equal to the
selection unless it is the wildcard, and state equal to the selection unless
it is the wildcard; for `filter_data` of the comparison script, category
membership in the selected set and the same seniority predicate. -/
theorem filter_engine_exact (df : List Row) (lo hi : ℚ) (sen st : String)
    (cats : List String) (r : Row) :
    (r ∈ filtered_df df lo hi sen st ↔
      r ∈ df ∧ (lo ≤ r.avg_salary_k ∧ r.avg_salary_k ≤ hi) ∧
        (sen = "All" ∨ r.seniority = sen) ∧ (st = "All" ∨ r.state = st)) ∧
    (r ∈ filter_data df cats sen ↔
      r ∈ df ∧ r.job_category ∈ cats ∧ (sen = "All" ∨ r.seniority = sen)) := by
  constructor
  · unfold filtered_df
    rw [mem_filterState, mem_filterSeniority]
    simp [List.mem_filter]
    tauto
  · unfold filter_data
    rw [mem_filterSeniority]
    simp [List.mem_filter]
    tauto

/-- Claim C3: for every source table and every combination of filter
parameters, the filtered view of either engine has at most as many rows as
the source table. -/
theorem filtered_view_count_le (df : List Row) (lo hi : ℚ) (sen st : String)
    (cats : List String) :
    (filtered_df df lo hi sen st).length ≤ df.length ∧
    (filter_data df cats sen).length ≤ df.length := by
  constructor
  · exact le_trans (length_filterState_le _ _)
      (le_trans (length_filterSeniority_le _ _) (List.length_filter_le _ _))
  · exact le_trans (length_filterSeniority_le _ _) (List.length_filter_le _ _)

/-- Claim C4: on either dashboard, selecting a single seniority value and
then re-selecting the wildcard yields exactly the row count of applying the
pipeline with the wildcard directly — each render recomputes the view from
the source table, and the wildcard leaves the seniority unrestricted (the
comparison view is then just the category filter). -/
theorem seniority_all_reexpand (df : List Row) (cats : List String)
    (lo hi : ℚ) (st v : String) :
    (renderSeq df cats [v, "All"]).length = (filter_data df cats ("All")).length ∧
    (renderSeqUSA df lo hi st [v, "All"]).length = (filtered_df df lo hi ("All") st).length ∧
    filter_data df cats ("All") = df.filter (fun r => decide (r.job_category ∈ cats)) := by
  refine ⟨rfl, rfl, ?_⟩
  unfold filter_data filterSeniority
  simp

/-- Claim C8: filtering with an empty category selection yields an empty
view, whatever the table and the seniority selection. -/
theorem empty_categories_empty_view (df : List Row) (sen : String) :
    (filter_data df [] sen).length = 0 := by
  unfold filter_data
  have h : df.filter (fun r => decide (r.job_category ∈ ([] : List String))) = [] := by
    simp
  rw [h]
  unfold filterSeniority
  split <;> simp

/-- Claim C2 (evaluation at the failing input): on the one-row Junior table,
filtering to Senior produces an empty view; the median is then undefined
(pandas NaN, modelled `none`) and the unguarded metric formatting of
`src/app.py` line 88 displays the literal text `$nanK` rather than a
not-available indicator. -/
theorem empty_view_median_display_nan :
    median_salary (filtered_df c2Table 50 140 ("Senior") ("All")) = none ∧
    medianSalaryDisplay (filtered_df c2Table 50 140 ("Senior") ("All")) = "$nanK" := by
  constructor <;> rfl

/-- Claim C9: on the ten-row table with salaries 50..140 where exactly the
rows 100, 110, 120 and 140 are Senior, filtering to Senior and taking the
median salary of the view yields exactly 115. -/
theorem senior_median_example :
    median_salary (filtered_df exampleTable 50 140 ("Senior") ("All")) = some 115 := by
  have hfd : filtered_df exampleTable 50 140 ("Senior") ("All") =
      [mkJob ("Senior") 100 [], mkJob ("Senior") 110 [],
       mkJob ("Senior") 120 [], mkJob ("Senior") 140 []] := by decide
  unfold median_salary
  rw [hfd]
  norm_num [median, sortRat, insertSorted, mkJob]

/-- Claim C6: the India LPA to USD-equivalent conversion of the comparison
script is multiplication by the fixed constant 1.2 = 6/5 (with the fixed
divisor 3 applied for the purchasing-power-parity adjustment), and the
conversion is strictly monotone. -/
theorem lpa_conversion_monotone (a b : ℚ) :
    india_sal_usd a = a * (6 / 5) ∧
    (0 < a → ppp_adjusted a = a / 3) ∧
    (a < b → india_sal_usd a < india_sal_usd b) := by
  refine ⟨rfl, ?_, ?_⟩
  · intro h
    unfold ppp_adjusted
    rw [if_pos h]
  · intro h
    unfold india_sal_usd
    exact mul_lt_mul_of_pos_right h (by norm_num)

/-- Witness for C6 at the concrete pair 10 < 20. -/
theorem lpa_conversion_monotone_witness :
    ((0:ℚ) < 10 ∧ ppp_adjusted 10 = 10 / 3) ∧
    ((10:ℚ) < 20 ∧ india_sal_usd 10 < india_sal_usd 20) :=
  ⟨⟨by norm_num, (lpa_conversion_monotone 10 20).2.1 (by norm_num)⟩,
   ⟨by norm_num, (lpa_conversion_monotone 10 20).2.2 (by norm_num)⟩⟩

/-- A ratio of a filtered count to a positive total, times 100, lies in
[0, 100]. Shared helper. -/
theorem pct_nonneg_le_100 (n m : Nat) (hnm : n ≤ m) (hm : 0 < m) :
    0 ≤ ((n : ℚ) / (m : ℚ)) * 100 ∧ ((n : ℚ) / (m : ℚ)) * 100 ≤ 100 := by
  have hm' : (0:ℚ) < m := by exact_mod_cast hm
  constructor
  · positivity
  · have hdiv : (n : ℚ) / (m : ℚ) ≤ 1 := by
      rw [div_le_one hm']
      exact_mod_cast hnm
    calc ((n : ℚ) / (m : ℚ)) * 100 ≤ 1 * 100 :=
          mul_le_mul_of_nonneg_right hdiv (by norm_num)
      _ = 100 := by norm_num

/-- Rounding to one decimal place keeps a value of [0, 100] inside [0, 100].
Shared helper. -/
theorem round1_bounds (x : ℚ) (h0 : 0 ≤ x) (h100 : x ≤ 100) :
    0 ≤ round1 x ∧ round1 x ≤ 100 := by
  unfold round1
  constructor
  · have hz : (0:ℤ) ≤ ⌊x * 10 + 1 / 2⌋ := by
      rw [Int.le_floor]
      push_cast
      linarith
    have h' : (0:ℚ) ≤ ((⌊x * 10 + 1 / 2⌋ : ℤ) : ℚ) := by exact_mod_cast hz
    linarith
  · have hfl : (⌊x * 10 + 1 / 2⌋ : ℤ) ≤ 1000 := by
      by_contra hcon
      push_neg at hcon
      have hge : (1001:ℚ) ≤ (⌊x * 10 + 1 / 2⌋ : ℚ) := by exact_mod_cast hcon
      have hle : (⌊x * 10 + 1 / 2⌋ : ℚ) ≤ x * 10 + 1 / 2 := Int.floor_le _
      linarith
    have h' : ((⌊x * 10 + 1 / 2⌋ : ℤ) : ℚ) ≤ 1000 := by exact_mod_cast hfl
    linarith

/-- Claim C7: every computed skill prevalence percentage lies in [0, 100]:
the guarded percentage of the comparison script for any view and column, and
the rounded `Percentage` column of `src/app.py` for any entry of the skill
count table (whose counts are positive, forcing a nonempty view). -/
theorem skill_percentage_bounds (df : List Row) (cols : List String)
    (col : String) (c : Nat) :
    (0 ≤ skillPct df col ∧ skillPct df col ≤ 100) ∧
    ((col, c) ∈ skill_counts df cols →
      0 ≤ percentageOf df c ∧ percentageOf df c ≤ 100) := by
  constructor
  · unfold skillPct
    split
    · rename_i h
      exact pct_nonneg_le_100 _ _ (List.length_filter_le _ _) h
    · norm_num
  · intro hmem
    unfold skill_counts at hmem
    rw [List.mem_filterMap] at hmem
    obtain ⟨c0, hc0, hfc⟩ := hmem
    split at hfc
    · rename_i hpos
      obtain ⟨h1, h2⟩ : c0 = col ∧ (df.filter (fun r => decide (c0 ∈ r.skills))).length = c := by
        simpa using hfc
      rw [h2] at hpos
      have hcle : c ≤ df.length := by
        rw [← h2]
        exact List.length_filter_le _ _
      have hdf : 0 < df.length := lt_of_lt_of_le hpos hcle
      unfold percentageOf
      obtain ⟨hl, hr⟩ := pct_nonneg_le_100 c df.length hcle hdf
      exact round1_bounds _ hl hr
    · simp at hfc

/-- Witness for C7 on a concrete twenty-row table with one skilled row. -/
theorem skill_percentage_bounds_witness :
    (("python"), 1) ∈ skill_counts c5UsaTable [("python")] ∧
    (0 ≤ skillPct c5UsaTable ("python") ∧ skillPct c5UsaTable ("python") ≤ 100) ∧
    (0 ≤ percentageOf c5UsaTable 1 ∧ percentageOf c5UsaTable 1 ≤ 100) :=
  ⟨by decide,
   (skill_percentage_bounds c5UsaTable [("python")] ("python") 1).1,
   (skill_percentage_bounds c5UsaTable [("python")] ("python") 1).2 (by decide)⟩

/-- Claim C5 as stated is false: on two twenty-row tables in which the skill
column has exactly 5 percent prevalence in each dataset, the combined
prevalence is at the 5 percent threshold under either reading (pooled over
the concatenated datasets it is 5; summed over the two it is 10), yet the
skill is excluded from the comparison maps because the code requires one of
the two individual percentages to strictly exceed 5. -/
theorem skills_threshold_counterexample :
    skillPct (c5UsaTable ++ c5IndiaTable) ("python") = 5 ∧
    skillPct c5UsaTable ("python") + skillPct c5IndiaTable ("python") = 10 ∧
    comparisonSkills c5UsaTable c5IndiaTable [("python")] = [] := by
  have hu : skillPct c5UsaTable ("python") = 5 := by
    have h1 : (c5UsaTable.filter (fun r => decide (("python") ∈ r.skills))).length = 1 := by
      decide
    have h2 : c5UsaTable.length = 20 := by decide
    unfold skillPct
    rw [h1, h2]
    norm_num
  have hi : skillPct c5IndiaTable ("python") = 5 := by
    have h1 : (c5IndiaTable.filter (fun r => decide (("python") ∈ r.skills))).length = 1 := by
      decide
    have h2 : c5IndiaTable.length = 20 := by decide
    unfold skillPct
    rw [h1, h2]
    norm_num
  have hc : skillPct (c5UsaTable ++ c5IndiaTable) ("python") = 5 := by
    have h1 : ((c5UsaTable ++ c5IndiaTable).filter
        (fun r => decide (("python") ∈ r.skills))).length = 2 := by decide
    have h2 : (c5UsaTable ++ c5IndiaTable).length = 40 := by decide
    unfold skillPct
    rw [h1, h2]
    norm_num
  refine ⟨hc, by rw [hu, hi]; norm_num, ?_⟩
  unfold comparisonSkills
  norm_num [hu, hi]

/-- Claim C5 amended: a common skill column enters the cross-dataset
comparison maps exactly when its prevalence strictly exceeds 5 percent in at
least one of the two (filtered) datasets individually — not when the
combined prevalence reaches a 5 percent threshold. (The chart then keeps the
top 15 of the included skills by combined prevalence.) -/
theorem skills_threshold_amended (dfU dfI : List Row) (cols : List String)
    (col : String) (hcol : col ∈ cols) :
    (∃ u i, (col, u, i) ∈ comparisonSkills dfU dfI cols) ↔
      (5 < skillPct dfU col ∨ 5 < skillPct dfI col) := by
  constructor
  · rintro ⟨u, i, hmem⟩
    unfold comparisonSkills at hmem
    rw [List.mem_filterMap] at hmem
    obtain ⟨c0, hc0, hfc⟩ := hmem
    split at hfc
    · rename_i hp
      obtain ⟨h1, h2, h3⟩ :
          c0 = col ∧ skillPct dfU c0 = u ∧ skillPct dfI c0 = i := by simpa using hfc
      rw [← h1]
      exact hp
    · simp at hfc
  · intro hp
    refine ⟨skillPct dfU col, skillPct dfI col, ?_⟩
    unfold comparisonSkills
    rw [List.mem_filterMap]
    refine ⟨col, hcol, ?_⟩
    rw [if_pos hp]

/-- Witness for the amended C5 on the concrete tables and the singleton
column list. -/
theorem skills_threshold_amended_witness :
    ("python") ∈ [("python")] ∧
    ((∃ u i, (("python"), u, i) ∈ comparisonSkills c5UsaTable c5IndiaTable [("python")]) ↔
      (5 < skillPct c5UsaTable ("python") ∨ 5 < skillPct c5IndiaTable ("python"))) :=
  ⟨by decide,
   skills_threshold_amended c5UsaTable c5IndiaTable [("python")] ("python") (by decide)⟩

/-- Claim C10: loading normalizes states row by row — the table keeps its
length (no row is dropped), each row keeps every other field, a state equal
to one of the 51 known abbreviations (50 states plus DC) becomes the mapped
full name, and any other state value is left exactly as it was (never turned
into a missing value). -/
theorem load_data_state_normalization (df : List Row) :
    state_mapping.length = 51 ∧
    (load_data df).length = df.length ∧
    ∀ (i : Nat) (r : Row), df[i]? = some r →
      ∃ s, (load_data df)[i]? = some { r with state := s } ∧
        (∀ full, state_mapping.lookup r.state = some full → s = full) ∧
        (state_mapping.lookup r.state = none → s = r.state) := by
  refine ⟨by decide, ?_, ?_⟩
  · unfold load_data
    exact List.length_map _ _
  · intro i r hir
    refine ⟨normalizeState r.state, ?_, ?_, ?_⟩
    · unfold load_data
      rw [List.getElem?_map, hir]
      rfl
    · intro full hf
      unfold normalizeState
      rw [hf]
      rfl
    · intro hf
      unfold normalizeState
      rw [hf]
      rfl

/-- Witness for C10 on a one-row table whose state is the abbreviation CA. -/
theorem load_data_state_normalization_witness :
    ([c10Row] : List Row)[0]? = some c10Row ∧
    ∃ s, (load_data [c10Row])[0]? = some { c10Row with state := s } ∧
      (∀ full, state_mapping.lookup c10Row.state = some full → s = full) ∧
      (state_mapping.lookup c10Row.state = none → s = c10Row.state) :=
  ⟨rfl, (load_data_state_normalization [c10Row]).2.2 0 c10Row rfl⟩
